import Mathlib

/-!
Verification development for the message-manager-discord gateway bootstrap.

The repository consists of two entrypoint variants in `src/index.ts`:
a simple variant (reads REDIS_HOST / REDIS_PORT / DISCORD_TOKEN and calls
`createGatewayConnection`) and a metrics variant (additionally reads
METRICS_PORT / METRICS_HOST / METRICS_AUTH / LOGGING_LEVEL, starts shards,
a 15-second guild-count poller, and an authenticated `/metrics` server).

The definitions below are a shallow embedding of that TypeScript source:
JavaScript strings become `String`, possibly-undefined values become
`Option`, the JavaScript number `NaN` produced by `parseInt` is modelled
as `none` in `Option Int`, and effectful top-level code is modelled as
the list of actions it performs, in source order.
-/

/-- JavaScript truthiness of a `string | undefined` value: `undefined`
and the empty string are falsy, every other string is truthy. -/
def truthy : Option String → Bool
  | none => false
  | some s => s ≠ ""

/-- Characters matched by JavaScript whitespace (the ASCII part of `\s`
and of the whitespace skipped by `parseInt`). -/
def isJsSpace (c : Char) : Bool :=
  c = ' ' || c = '\t' || c = '\n' || c = '\r' || c = '\x0b' || c = '\x0c'

/-- Drop the maximal leading run of JavaScript whitespace. -/
def dropJsSpace : List Char → List Char
  | [] => []
  | c :: r => if isJsSpace c then dropJsSpace r else c :: r

/-- Value of a decimal digit, `none` for any other character. -/
def decVal (c : Char) : Option Nat :=
  if '0' ≤ c ∧ c ≤ '9' then some (c.toNat - 48) else none

/-- Value of a hexadecimal digit, `none` for any other character. -/
def hexVal (c : Char) : Option Nat :=
  if '0' ≤ c ∧ c ≤ '9' then some (c.toNat - 48)
  else if 'a' ≤ c ∧ c ≤ 'f' then some (c.toNat - 87)
  else if 'A' ≤ c ∧ c ≤ 'F' then some (c.toNat - 55)
  else none

/-- Maximal leading run of digits recognised by `f`, as digit values. -/
def takeDigits (f : Char → Option Nat) : List Char → List Nat
  | [] => []
  | c :: r =>
    match f c with
    | some v => v :: takeDigits f r
    | none => []

/-- Fold a digit-value list into a natural number in the given base. -/
def digitsToNat (base : Nat) (ds : List Nat) : Nat :=
  ds.foldl (fun a d => a * base + d) 0

/-- Parse a maximal digit run; `none` when there is no digit, which is
how JavaScript `parseInt` yields `NaN`. -/
def parseIntCore (base : Nat) (f : Char → Option Nat) (l : List Char) : Option Nat :=
  match takeDigits f l with
  | [] => none
  | ds => some (digitsToNat base ds)

/-- Unsigned part of `parseInt` with radix undefined: a `0x`/`0X` string
is read as hexadecimal, anything else as decimal. -/
def parseUnsigned (l : List Char) : Option Nat :=
  match l with
  | '0' :: 'x' :: r => parseIntCore 16 hexVal r
  | '0' :: 'X' :: r => parseIntCore 16 hexVal r
  | _ => parseIntCore 10 decVal l

/-- Signed part of `parseInt`: one optional leading `+` or `-`. -/
def parseSigned (l : List Char) : Option Int :=
  match l with
  | '+' :: r => (parseUnsigned r).map (fun n => (n : Int))
  | '-' :: r => (parseUnsigned r).map (fun n => -(n : Int))
  | _ => (parseUnsigned l).map (fun n => (n : Int))

/-- JavaScript `parseInt(s)` with radix undefined. The result `none`
models `NaN`. `parseInt` never throws: this function is total, which is
why the `try`/`catch` blocks around it in the source are dead code. -/
def parseIntJS (s : String) : Option Int :=
  parseSigned (dropJsSpace s.toList)

/-- The process environment as read by `src/index.ts`: each field is the
string value of the variable, or `none` when it is not set. -/
structure Env where
  REDIS_HOST : Option String
  REDIS_PORT : Option String
  DISCORD_TOKEN : Option String
  METRICS_PORT : Option String
  METRICS_HOST : Option String
  METRICS_AUTH : Option String
  LOGGING_LEVEL : Option String
deriving DecidableEq

/-- Outcome of the simple variant's top level: either the startup throw,
or a `createGatewayConnection` call with the recorded host, port and
token. A `none` port records a `NaN` from `parseInt`. -/
inductive SimpleOutcome
  | startupError (msg : String)
  | gatewayConnection (host : String) (port : Option Int) (token : String)
deriving DecidableEq

/-- The simple variant (`src/index.ts`, first entrypoint): check the
three environment variables by truthiness, then parse the port. The
`catch` branch that would throw "Port must be a valid number" is
unreachable because `parseIntJS` is total, exactly as `parseInt` never
throws in JavaScript. -/
def simpleStartup (env : Env) : SimpleOutcome :=
  if !truthy env.REDIS_HOST || !truthy env.REDIS_PORT || !truthy env.DISCORD_TOKEN then
    .startupError "Missing environment variables"
  else
    .gatewayConnection (env.REDIS_HOST.getD "")
      (parseIntJS (env.REDIS_PORT.getD ""))
      (env.DISCORD_TOKEN.getD "")

/-- Configuration constants of the metrics variant after the top-level
checks and parses. `PORT = none` models `PORT = NaN`; in `METRICS_PORT`
the outer `none` models `undefined` and the inner `none` models `NaN`. -/
structure MetricsConfig where
  HOST : Option String
  PORT : Option Int
  TOKEN : String
  METRICS_PORT : Option (Option Int)
  METRICS_HOST : Option String
  METRICS_AUTH : Option String
  LOGGING_LEVEL : String
deriving DecidableEq

/-- The configuration constants the metrics variant computes from the
environment once its required-variable check has passed: `REDIS_PORT`
is parsed unconditionally, `METRICS_PORT` only when the string is
truthy (the ternary in the source), and `LOGGING_LEVEL` defaults to
"info". -/
def builtConfig (env : Env) : MetricsConfig :=
  { HOST := env.REDIS_HOST
    PORT := parseIntJS (env.REDIS_PORT.getD "")
    TOKEN := env.DISCORD_TOKEN.getD ""
    METRICS_PORT :=
      if truthy env.METRICS_PORT then some (parseIntJS (env.METRICS_PORT.getD ""))
      else none
    METRICS_HOST := env.METRICS_HOST
    METRICS_AUTH := env.METRICS_AUTH
    LOGGING_LEVEL := if truthy env.LOGGING_LEVEL then env.LOGGING_LEVEL.getD "" else "info" }

/-- The metrics variant's startup section: requires only `REDIS_PORT`
and `DISCORD_TOKEN` to be truthy (not `REDIS_HOST`), then computes the
configuration. As in `simpleStartup`, the `catch` branches never fire
because `parseIntJS` is total. -/
def metricsStartup (env : Env) : Except String MetricsConfig :=
  if !truthy env.REDIS_PORT || !truthy env.DISCORD_TOKEN then
    .error "Missing environment variables"
  else
    .ok (builtConfig env)

/-- JavaScript truthiness of the `METRICS_PORT` value of type
`number | undefined`: `undefined`, `NaN` and `0` are falsy. -/
def numTruthy : Option (Option Int) → Bool
  | some (some n) => n ≠ 0
  | _ => false

/-- Guard of `if (METRICS_PORT && METRICS_HOST)` in the source. -/
def metricsServerEnabled (cfg : MetricsConfig) : Bool :=
  numTruthy cfg.METRICS_PORT && truthy cfg.METRICS_HOST

/-- The numeric value of `METRICS_PORT` when the server-enabled guard
holds. -/
def enabledPort (cfg : MetricsConfig) : Int :=
  (cfg.METRICS_PORT.getD none).getD 0

/-- Whether the list starts with the six letters of "bearer", compared
case-insensitively — the anchored part of matching `/BEARER\s*/i`. -/
def startsWithBearer (l : List Char) : Bool :=
  (l.take 6).map Char.toLower = ['b', 'e', 'a', 'r', 'e', 'r']

/-- `s.replace(/BEARER\s*/i, "")` on the character list: remove the
leftmost case-insensitive occurrence of "bearer" together with the
greedy run of whitespace after it. The regex is not anchored, so the
occurrence may be anywhere in the string, and only the first one is
removed because the regex has no `g` flag. -/
def replaceBearerOnce : List Char → List Char
  | [] => []
  | c :: r =>
    if startsWithBearer (c :: r) then dropJsSpace ((c :: r).drop 6)
    else c :: replaceBearerOnce r

/-- The authorization-header transformation applied by the `/metrics`
route's preHandler: `authorization.replace(/BEARER\s*/i, "")`. -/
def stripAuth (s : String) : String :=
  (replaceBearerOnce s.toList).asString

/-- Modelled from the spec's words, for comparison with `stripAuth`
only: strip a case-insensitive "Bearer" PREFIX (with the whitespace
after it); a string not starting with "Bearer" is left unchanged. -/
def specStripBearer (s : String) : String :=
  if startsWithBearer s.toList then (dropJsSpace (s.toList.drop 6)).asString else s

/-- Cumulative state of the three prom-client instruments registered by
the metrics variant. Each labelled counter is an association list from
the `name` label value to the count. -/
structure MetricsState where
  guildCount : Int
  events : List (String × Nat)
  redisCommands : List (String × Nat)
deriving DecidableEq

/-- `counter.inc({ name })`: add 1 to the labelled child, creating it at
1 when the label has not been seen. -/
def counterInc : List (String × Nat) → String → List (String × Nat)
  | [], n => [(n, 1)]
  | (m, v) :: rest, n =>
    if m = n then (m, v + 1) :: rest else (m, v) :: counterInc rest n

/-- Current value of a labelled counter child (0 when absent). -/
def counterGet : List (String × Nat) → String → Nat
  | [], _ => 0
  | (m, v) :: rest, n => if m = n then v else counterGet rest n

/-- `handleGatewayEvent = async ({ name }) => eventsCounter.inc({ name })`. -/
def handleGatewayEvent (name : String) (s : MetricsState) : MetricsState :=
  { s with events := counterInc s.events name }

/-- `handleRedisCommand = async ({ name }) => redisCommandsCounter.inc({ name })`. -/
def handleRedisCommand (name : String) (s : MetricsState) : MetricsState :=
  { s with redisCommands := counterInc s.redisCommands name }

/-- `const metricsPrefix = "discord_gateway_"`. -/
def metricsPrefix : String := "discord_gateway_"

/-- Name of the guild-count gauge. -/
def guildGaugeName : String := metricsPrefix ++ "guild_count"

/-- Name of the gateway-events counter. -/
def eventsCounterName : String := metricsPrefix ++ "gateway_events_count"

/-- Name of the redis-commands counter. -/
def redisCommandsCounterName : String := metricsPrefix ++ "redis_commands_count"

/-- The three metric names registered with the prom-client registry. -/
def registeredMetricNames : List String :=
  [guildGaugeName, eventsCounterName, redisCommandsCounterName]

/-- Concatenation of a list of strings. -/
def concatAll : List String → String
  | [] => ""
  | s :: r => s ++ concatAll r

/-- One exposition line of a labelled counter child. -/
def counterLine (metric : String) (p : String × Nat) : String :=
  metric ++ "\x7bname=\"" ++ p.1 ++ "\"\x7d " ++ toString p.2 ++ "\n"

/-- Prometheus text exposition of one labelled counter. -/
def renderCounter (metric help : String) (counts : List (String × Nat)) : String :=
  "# HELP " ++ metric ++ " " ++ help ++ "\n# TYPE " ++ metric ++ " counter\n" ++
    concatAll (counts.map (counterLine metric))

/-- Prometheus text exposition of the gauge. -/
def renderGauge (metric help : String) (v : Int) : String :=
  "# HELP " ++ metric ++ " " ++ help ++ "\n# TYPE " ++ metric ++ " gauge\n" ++
    metric ++ " " ++ toString v ++ "\n"

/-- `promClient.register.metrics()`: text exposition of the three
registered instruments. -/
def registerMetricsText (s : MetricsState) : String :=
  renderGauge guildGaugeName "Number of guilds" s.guildCount ++
  renderCounter eventsCounterName "Number of gateway events" s.events ++
  renderCounter redisCommandsCounterName "Number of redis commands" s.redisCommands

/-- `pat` occurs as a contiguous substring of `s`. -/
def containsStr (s pat : String) : Prop :=
  ∃ a b : String, s = a ++ (pat ++ b)

/-- An HTTP response of the metrics server as observed by a client. -/
structure HttpResponse where
  status : Nat
  contentType : Option String
  body : String
deriving DecidableEq

/-- The `GET /metrics` route: the preHandler replies 401 "Unauthorized"
when the stripped authorization header differs from `METRICS_AUTH`
(an absent header stays absent, by optional chaining), otherwise the
handler replies 200 with the registry exposition as `text/plain`. -/
def metricsRoute (auth : Option String) (header : Option String) (exposition : String) :
    HttpResponse :=
  if (header.map stripAuth) ≠ auth then
    { status := 401, contentType := none, body := "Unauthorized" }
  else
    { status := 200, contentType := some "text/plain", body := exposition }

/-- Events of one tick of `every15Seconds`, in the order the JavaScript
event loop performs them. -/
inductive TickEvent
  | issueQuery (shardIdx : Nat)
  | setGauge (v : Int)
  | scheduleNext (ms : Nat)
  | resolveAdd (shardIdx : Nat) (count : Int)
deriving DecidableEq

/-- A microtask pending after the synchronous part of a tick: the
continuation `guildCount += shardGuildCount` of shard `idx`, waiting on
the resolved count. -/
inductive Microtask
  | cont (idx : Nat) (count : Int)
deriving DecidableEq

/-- `shards.forEach(async (shard) => ...)`: each callback runs
synchronously up to its first `await` — issuing the `getGuildCount`
query — and its continuation is queued as a microtask. `forEach` does
not await the returned promises. Returns the issue events and the
microtask queue, both in shard order. `counts` are the values the
queries will eventually resolve with. -/
def forEachAsync : List Int → Nat → List TickEvent × List Microtask
  | [], _ => ([], [])
  | c :: rest, idx =>
    let p := forEachAsync rest (idx + 1)
    (.issueQuery idx :: p.1, .cont idx c :: p.2)

/-- Run the queued microtasks in order: each adds its resolved count to
the `guildCount` accumulator. Returns the resolve events and the final
accumulator value. -/
def drainMicro : List Microtask → Int → List TickEvent × Int
  | [], gc => ([], gc)
  | .cont i c :: rest, gc =>
    let p := drainMicro rest (gc + c)
    (.resolveAdd i c :: p.1, p.2)

/-- One tick of `every15Seconds` under JavaScript run-to-completion
semantics: `let guildCount = 0`; the `forEach` issues all queries
without awaiting them; `guildsGauge.set(guildCount)` reads the
accumulator while it is still 0; `setTimeout(every15Seconds, 15 * 1000)`
schedules the next tick; only then do the microtasks run and add the
resolved counts. Returns (event trace, value set on the gauge, final
accumulator value). -/
def tickRun (counts : List Int) : List TickEvent × Int × Int :=
  let gc : Int := 0
  let sync := forEachAsync counts 0
  let gaugeSet := gc
  let micro := drainMicro sync.2 gc
  (sync.1 ++ TickEvent.setGauge gaugeSet :: TickEvent.scheduleNext (15 * 1000) :: micro.1,
   gaugeSet, micro.2)

/-- Expected issue-event trace of a tick, one query per shard in order. -/
def issueEvents (idx : Nat) (counts : List Int) : List TickEvent :=
  (List.range' idx counts.length).map TickEvent.issueQuery

/-- Expected resolve-event trace of a tick, one addition per shard in
order. -/
def resolveEvents : Nat → List Int → List TickEvent
  | _, [] => []
  | idx, c :: rest => TickEvent.resolveAdd idx c :: resolveEvents (idx + 1) rest

/-- Steps the `startShards` loop performs for one shard id, in source
order: construct the `GatewayClient`, start and finish awaiting its
`connect()`, then `shards.push(shard)`. -/
inductive ShardEvent
  | construct (shardId : Nat)
  | connectStart (shardId : Nat)
  | connectDone (shardId : Nat)
  | push (shardId : Nat)
deriving DecidableEq

/-- Loop body trace of `startShards` for one shard id. -/
def shardSteps (shardId : Nat) : List ShardEvent :=
  [.construct shardId, .connectStart shardId, .connectDone shardId, .push shardId]

/-- The `for (let shardId = 0; shardId < shardCount; shardId++)` loop of
`startShards`, generalised over the remaining iteration count: runs the
body for `shardId`, awaiting `connect()` to completion before the next
iteration starts. Returns the event trace and the `shards` collection
(shard ids pushed in order). -/
def startShardsFrom : Nat → Nat → List ShardEvent × List Nat
  | 0, _ => ([], [])
  | Nat.succ k, shardId =>
    let p := startShardsFrom k (shardId + 1)
    (shardSteps shardId ++ p.1, shardId :: p.2)

/-- `startShards` for a given shard count, starting at shard id 0. -/
def startShardsRun (n : Nat) : List ShardEvent × List Nat :=
  startShardsFrom n 0

/-- `const shardCount = 1` in the source. -/
def shardCount : Nat := 1

/-- Top-level actions of the metrics variant after its startup section,
in source order. -/
inductive MainAction
  | throwError (msg : String)
  | sentryInit
  | createLogger (level : String)
  | startShards
  | startPoller
  | createServer
  | registerRoute
  | addHook
  | logStartingMetrics (port : Int)
  | listen (port : Int)
  | listenWith (port : Int) (host : String)
deriving DecidableEq

/-- Top-level effects of the metrics variant given its configuration:
Sentry init, logger creation, `startShards(TOKEN)`, the first
`every15Seconds()` call, and — only when `METRICS_PORT && METRICS_HOST`
is truthy — the fastify server creation, route and hook registration,
the startup log line, and the two `listen` calls, both passed the same
`METRICS_PORT` value, the second also the host and a callback. -/
def mainActions (cfg : MetricsConfig) : List MainAction :=
  [.sentryInit, .createLogger cfg.LOGGING_LEVEL, .startShards, .startPoller] ++
  (if metricsServerEnabled cfg then
    [.createServer, .registerRoute, .addHook,
     .logStartingMetrics (enabledPort cfg),
     .listen (enabledPort cfg),
     .listenWith (enabledPort cfg) (cfg.METRICS_HOST.getD "")]
  else [])

/-- Whole metrics variant: a startup failure throws before anything
else runs; otherwise the main actions run with the built configuration. -/
def metricsMain (env : Env) : List MainAction :=
  match metricsStartup env with
  | .error msg => [.throwError msg]
  | .ok cfg => mainActions cfg

/-- Actions the callback of the second `listen` call can perform. -/
inductive CbAction
  | consoleError (msg : String)
  | processExit (code : Nat)
  | logListening (address : String)
deriving DecidableEq

/-- The callback passed to the second `listen`: on error it logs the
error to the console and calls `process.exit(1)`; otherwise it logs the
listening address. -/
def listenCallback (err : Option String) (address : String) : List CbAction :=
  match err with
  | some e => [.consoleError e, .processExit 1]
  | none => [.logListening address]

/-- Post-startup state of the metrics variant that the running
callbacks and the poller touch. -/
structure AppState where
  cfg : MetricsConfig
  shardTotal : Nat
  shards : List Nat
  metrics : MetricsState
deriving DecidableEq

/-- Operations the process performs after startup: the two metric
callbacks, a poller tick (whose gauge write is the value `tickRun`
sets), and a `/metrics` request (which only reads state). -/
inductive AppOp
  | gatewayEvent (name : String)
  | redisCommand (name : String)
  | pollTick (counts : List Int)
  | httpRequest (authHeader : Option String)
deriving DecidableEq

/-- Effect of one post-startup operation on the application state. -/
def applyOp (s : AppState) : AppOp → AppState
  | .gatewayEvent n => { s with metrics := handleGatewayEvent n s.metrics }
  | .redisCommand n => { s with metrics := handleRedisCommand n s.metrics }
  | .pollTick counts =>
    { s with metrics := { s.metrics with guildCount := (tickRun counts).2.1 } }
  | .httpRequest _ => s

/-- A fixed small metrics state used to instantiate theorems. -/
def st0 : MetricsState :=
  { guildCount := 0, events := [], redisCommands := [] }

/-- Microtask queue left behind by the synchronous phase of a tick. -/
def microQueue : Nat → List Int → List Microtask
  | _, [] => []
  | idx, c :: rest => .cont idx c :: microQueue (idx + 1) rest

/-- An environment with a non-numeric `REDIS_PORT` and every other
required variable present. -/
def envBadPort : Env :=
  { REDIS_HOST := some "localhost", REDIS_PORT := some "abc",
    DISCORD_TOKEN := some "token", METRICS_PORT := none, METRICS_HOST := none,
    METRICS_AUTH := none, LOGGING_LEVEL := none }

/-- An environment missing `REDIS_PORT` (and `DISCORD_TOKEN`). -/
def envMissing : Env :=
  { REDIS_HOST := some "localhost", REDIS_PORT := none, DISCORD_TOKEN := none,
    METRICS_PORT := none, METRICS_HOST := none, METRICS_AUTH := none,
    LOGGING_LEVEL := none }

/-- An environment with every required variable except `REDIS_HOST`. -/
def envNoHost : Env :=
  { REDIS_HOST := none, REDIS_PORT := some "6379", DISCORD_TOKEN := some "abc",
    METRICS_PORT := none, METRICS_HOST := none, METRICS_AUTH := none,
    LOGGING_LEVEL := none }

/-- An environment enabling the metrics server with a non-numeric
`METRICS_PORT` string. -/
def envBadMetricsPort : Env :=
  { REDIS_HOST := some "localhost", REDIS_PORT := some "6379",
    DISCORD_TOKEN := some "abc", METRICS_PORT := some "not-a-number",
    METRICS_HOST := some "0.0.0.0", METRICS_AUTH := some "secret",
    LOGGING_LEVEL := none }

/-- A configuration with the metrics server enabled and no
`METRICS_AUTH`. -/
def cfgNoAuth : MetricsConfig :=
  { HOST := some "localhost", PORT := some 6379, TOKEN := "abc",
    METRICS_PORT := some (some 9100), METRICS_HOST := some "0.0.0.0",
    METRICS_AUTH := none, LOGGING_LEVEL := "info" }

theorem containsStr_refl (s : String) : containsStr s s :=
  ⟨"", "", by simp⟩

theorem containsStr_appLeft (s t pat : String) (h : containsStr s pat) :
    containsStr (s ++ t) pat := by
  obtain ⟨a, b, e⟩ := h
  exact ⟨a, b ++ t, by rw [e]; simp [String.append_assoc]⟩

theorem containsStr_appRight (s t pat : String) (h : containsStr t pat) :
    containsStr (s ++ t) pat := by
  obtain ⟨a, b, e⟩ := h
  exact ⟨s ++ a, b, by rw [e]; simp [String.append_assoc]⟩

theorem renderGauge_contains_name (m h : String) (v : Int) :
    containsStr (renderGauge m h v) m :=
  ⟨"# HELP ",
   " " ++ h ++ "\n# TYPE " ++ m ++ " gauge\n" ++ m ++ " " ++ toString v ++ "\n",
   by simp [renderGauge, String.append_assoc]⟩

theorem renderCounter_contains_name (m h : String) (cs : List (String × Nat)) :
    containsStr (renderCounter m h cs) m :=
  ⟨"# HELP ",
   " " ++ h ++ "\n# TYPE " ++ m ++ " counter\n" ++ concatAll (cs.map (counterLine m)),
   by simp [renderCounter, String.append_assoc]⟩

theorem register_contains_gauge_name (s : MetricsState) :
    containsStr (registerMetricsText s) guildGaugeName :=
  containsStr_appLeft _ _ _ (containsStr_appLeft _ _ _
    (renderGauge_contains_name guildGaugeName "Number of guilds" s.guildCount))

theorem register_contains_events_name (s : MetricsState) :
    containsStr (registerMetricsText s) eventsCounterName :=
  containsStr_appLeft _ _ _ (containsStr_appRight _ _ _
    (renderCounter_contains_name eventsCounterName "Number of gateway events" s.events))

theorem register_contains_redis_name (s : MetricsState) :
    containsStr (registerMetricsText s) redisCommandsCounterName :=
  containsStr_appRight _ _ _
    (renderCounter_contains_name redisCommandsCounterName "Number of redis commands"
      s.redisCommands)

theorem concatAll_contains {α : Type} (f : α → String) (l : List α) (x : α) (hx : x ∈ l) :
    containsStr (concatAll (l.map f)) (f x) := by
  induction l with
  | nil => cases hx
  | cons a r ih =>
    rcases List.mem_cons.mp hx with h | h
    · subst h
      exact containsStr_appLeft _ _ _ (containsStr_refl (f x))
    · exact containsStr_appRight _ _ _ (ih h)

theorem counterInc_mem (cs : List (String × Nat)) (n : String) :
    (n, counterGet cs n + 1) ∈ counterInc cs n := by
  induction cs with
  | nil => simp [counterInc, counterGet]
  | cons p r ih =>
    obtain ⟨m, v⟩ := p
    by_cases h : m = n
    · subst h
      simp [counterInc, counterGet]
    · simp [counterInc, counterGet, h, ih]

theorem counterGet_inc_self (cs : List (String × Nat)) (n : String) :
    counterGet (counterInc cs n) n = counterGet cs n + 1 := by
  induction cs with
  | nil => simp [counterInc, counterGet]
  | cons p r ih =>
    obtain ⟨m, v⟩ := p
    by_cases h : m = n
    · subst h
      simp [counterInc, counterGet]
    · simp [counterInc, counterGet, h, ih]

theorem counterGet_inc_other (cs : List (String × Nat)) (n m : String) (h : m ≠ n) :
    counterGet (counterInc cs n) m = counterGet cs m := by
  have hnm : ¬n = m := fun e => h (Eq.symm e)
  induction cs with
  | nil => simp [counterInc, counterGet, hnm]
  | cons p r ih =>
    obtain ⟨q, v⟩ := p
    by_cases hq : q = n
    · subst hq
      have hqm : ¬q = m := fun e => h (Eq.symm e)
      simp [counterInc, counterGet, hqm]
    · simp [counterInc, counterGet, hq, ih]

theorem renderCounter_contains_line (metric help : String) (cs : List (String × Nat))
    (n : String) :
    containsStr (renderCounter metric help (counterInc cs n))
      (counterLine metric (n, counterGet cs n + 1)) := by
  unfold renderCounter
  exact containsStr_appRight _ _ _
    (concatAll_contains (counterLine metric) _ _ (counterInc_mem cs n))

theorem forEachAsync_spec (counts : List Int) (idx : Nat) :
    forEachAsync counts idx = (issueEvents idx counts, microQueue idx counts) := by
  induction counts generalizing idx with
  | nil => simp [forEachAsync, issueEvents, microQueue]
  | cons c rest ih =>
    simp [forEachAsync, issueEvents, microQueue, ih, List.range'_succ]

theorem drainMicro_spec (counts : List Int) (idx : Nat) (gc : Int) :
    drainMicro (microQueue idx counts) gc = (resolveEvents idx counts, gc + counts.sum) := by
  induction counts generalizing idx gc with
  | nil => simp [drainMicro, microQueue, resolveEvents]
  | cons c rest ih =>
    simp [drainMicro, microQueue, resolveEvents, ih, add_assoc]

theorem startShardsFrom_spec (k s : Nat) :
    startShardsFrom k s = ((List.range' s k).flatMap shardSteps, List.range' s k) := by
  induction k generalizing s with
  | zero => simp [startShardsFrom]
  | succ k ih => simp [startShardsFrom, ih, List.range'_succ]

/-- Claim C2: with a non-numeric `REDIS_PORT`, startup is claimed to
fail via the "Port must be a valid number" branch. The code does not:
`parseInt` returns `NaN` instead of throwing, so the `catch` branch is
dead and both variants proceed — the simple variant calls
`createGatewayConnection` with a `NaN` port (modelled as `none`), and
the metrics variant builds its configuration with `PORT = NaN`. -/
theorem c2_nonnumeric_port_not_fatal :
    simpleStartup envBadPort = SimpleOutcome.gatewayConnection "localhost" none "token" ∧
    metricsStartup envBadPort = Except.ok
      { HOST := some "localhost", PORT := none, TOKEN := "token",
        METRICS_PORT := none, METRICS_HOST := none, METRICS_AUTH := none,
        LOGGING_LEVEL := "info" } := by
  constructor
  · decide
  · rfl

/-- Claim C3: on each tick of the 15-second poller, the gauge is set
from the summation variable before any of that tick's asynchronous
`getGuildCount` queries resolve — so the value set is the initial 0,
never including that tick's results — and the next tick is scheduled
`15 * 1000` milliseconds later. The full accumulator only reaches the
true sum after the gauge write. -/
theorem c3_poller_sets_gauge_before_queries_resolve (counts : List Int) :
    (tickRun counts).2.1 = 0 ∧
    (tickRun counts).2.2 = counts.sum ∧
    (tickRun counts).1 =
      issueEvents 0 counts ++
        TickEvent.setGauge 0 :: TickEvent.scheduleNext (15 * 1000) ::
          resolveEvents 0 counts := by
  refine ⟨rfl, ?_, ?_⟩
  · simp [tickRun, forEachAsync_spec, drainMicro_spec]
  · simp [tickRun, forEachAsync_spec, drainMicro_spec]

/-- Claim C4: absence of `REDIS_PORT` or `DISCORD_TOKEN` makes both
variants throw "Missing environment variables" before any client is
constructed (the metrics variant's whole run is the throw, containing
no `startShards`); absence of `REDIS_HOST` alone fails the simple
variant but not the metrics variant's startup. -/
theorem c4_missing_env_vars (env : Env) :
    (env.REDIS_PORT = none ∨ env.DISCORD_TOKEN = none →
      simpleStartup env = SimpleOutcome.startupError "Missing environment variables" ∧
      metricsMain env = [MainAction.throwError "Missing environment variables"] ∧
      MainAction.startShards ∉ metricsMain env) ∧
    (env.REDIS_HOST = none → truthy env.REDIS_PORT = true → truthy env.DISCORD_TOKEN = true →
      simpleStartup env = SimpleOutcome.startupError "Missing environment variables" ∧
      ∃ cfg, metricsStartup env = Except.ok cfg) := by
  constructor
  · intro h
    rcases h with h | h
    · refine ⟨?_, ?_, ?_⟩ <;>
        simp [simpleStartup, metricsMain, metricsStartup, h, truthy]
    · refine ⟨?_, ?_, ?_⟩ <;>
        simp [simpleStartup, metricsMain, metricsStartup, h, truthy]
  · intro hh hp ht
    refine ⟨?_, ?_⟩
    · simp [simpleStartup, hh, truthy]
    · refine ⟨builtConfig env, ?_⟩
      simp [metricsStartup, hp, ht]

/-- Witness for C4 at two concrete environments. -/
theorem c4_missing_env_vars_witness :
    simpleStartup envMissing = SimpleOutcome.startupError "Missing environment variables" ∧
    metricsMain envMissing = [MainAction.throwError "Missing environment variables"] ∧
    simpleStartup envNoHost = SimpleOutcome.startupError "Missing environment variables" ∧
    (∃ cfg, metricsStartup envNoHost = Except.ok cfg) :=
  ⟨((c4_missing_env_vars envMissing).1 (Or.inl rfl)).1,
   ((c4_missing_env_vars envMissing).1 (Or.inl rfl)).2.1,
   ((c4_missing_env_vars envNoHost).2 rfl (by decide) (by decide)).1,
   ((c4_missing_env_vars envNoHost).2 rfl (by decide) (by decide)).2⟩

/-- Claim C1, amended: the route compares the credential against the
header with the first case-insensitive occurrence of "Bearer" (plus
following whitespace) removed — anywhere in the header, not only as a
prefix, since the regex `/BEARER\s*/i` is unanchored. A header that
matches under that transformation receives 200 `text/plain` with a body
containing all three registered metric names; any other header, or a
missing one, receives 401 with body "Unauthorized". -/
theorem c1_metrics_auth (a : String) (header : Option String) (st : MetricsState) :
    (header.map stripAuth = some a →
      metricsRoute (some a) header (registerMetricsText st) =
        { status := 200, contentType := some "text/plain",
          body := registerMetricsText st } ∧
      ∀ nm ∈ registeredMetricNames, containsStr (registerMetricsText st) nm) ∧
    (header.map stripAuth ≠ some a →
      metricsRoute (some a) header (registerMetricsText st) =
        { status := 401, contentType := none, body := "Unauthorized" }) := by
  constructor
  · intro h
    constructor
    · simp [metricsRoute, h]
    · intro nm hnm
      simp only [registeredMetricNames, List.mem_cons, List.mem_singleton] at hnm
      rcases hnm with h1 | h1 | h1 | h1
      · exact h1 ▸ register_contains_gauge_name st
      · exact h1 ▸ register_contains_events_name st
      · exact h1 ▸ register_contains_redis_name st
      · cases h1
  · intro h
    simp [metricsRoute, h]

/-- Witness for C1 at a correct and an incorrect concrete header. -/
theorem c1_metrics_auth_witness :
    metricsRoute (some "secret") (some "Bearer secret") (registerMetricsText st0) =
      { status := 200, contentType := some "text/plain",
        body := registerMetricsText st0 } ∧
    metricsRoute (some "secret") (some "wrong") (registerMetricsText st0) =
      { status := 401, contentType := none, body := "Unauthorized" } :=
  ⟨((c1_metrics_auth "secret" (some "Bearer secret") st0).1 (by decide)).1,
   (c1_metrics_auth "secret" (some "wrong") st0).2 (by decide)⟩

/-- Counterexample to C1 as stated: with credential "xy", the header
"xBearery" does not equal the credential after stripping a
case-insensitive "Bearer" PREFIX (there is none to strip), so the claim
demands a 401; but the unanchored regex deletes the mid-string "Bearer",
the comparison succeeds, and the code answers 200. -/
theorem c1_counterexample :
    specStripBearer "xBearery" = "xBearery" ∧
    "xBearery" ≠ "xy" ∧
    (metricsRoute (some "xy") (some "xBearery") (registerMetricsText st0)).status = 200 := by
  refine ⟨by decide, by decide, ?_⟩
  have h : stripAuth "xBearery" = "xy" := by decide
  simp [metricsRoute, h]

/-- Claim C5: when `METRICS_PORT` is set to a string that `parseInt`
cannot read (NaN) and `METRICS_HOST` is set, the configuration's
`METRICS_PORT` is falsy, so the `if (METRICS_PORT && METRICS_HOST)`
block is skipped: no server creation and no `listen` call — while
Sentry, logger, `startShards` and the poller still run. -/
theorem c5_bad_metrics_port_disables_server (env : Env) (s : String) (cfg : MetricsConfig)
    (hms : env.METRICS_PORT = some s) (hnan : parseIntJS s = none)
    (hmh : truthy env.METRICS_HOST = true)
    (hok : metricsStartup env = Except.ok cfg) :
    metricsServerEnabled cfg = false ∧
    mainActions cfg =
      [MainAction.sentryInit, MainAction.createLogger cfg.LOGGING_LEVEL,
       MainAction.startShards, MainAction.startPoller] ∧
    MainAction.startShards ∈ mainActions cfg ∧
    MainAction.startPoller ∈ mainActions cfg ∧
    ∀ p, MainAction.listen p ∉ mainActions cfg := by
  have hcfg : cfg = builtConfig env := by
    by_cases hg : (!truthy env.REDIS_PORT || !truthy env.DISCORD_TOKEN) = true
    · rw [metricsStartup, if_pos hg] at hok
      cases hok
    · rw [metricsStartup, if_neg hg] at hok
      cases hok
      rfl
  have hmp : cfg.METRICS_PORT = none ∨ cfg.METRICS_PORT = some none := by
    rw [hcfg]
    by_cases he : truthy env.METRICS_PORT = true
    · right
      rw [hms] at he
      simp [builtConfig, hms, he, hnan]
    · left
      simp [builtConfig, he]
  have hen : metricsServerEnabled cfg = false := by
    rcases hmp with h | h <;> simp [metricsServerEnabled, numTruthy, h]
  refine ⟨hen, ?_, ?_, ?_, ?_⟩ <;> simp [mainActions, hen]

/-- Witness for C5 at a concrete environment. -/
theorem c5_bad_metrics_port_disables_server_witness :
    metricsServerEnabled (builtConfig envBadMetricsPort) = false ∧
    mainActions (builtConfig envBadMetricsPort) =
      [MainAction.sentryInit,
       MainAction.createLogger (builtConfig envBadMetricsPort).LOGGING_LEVEL,
       MainAction.startShards, MainAction.startPoller] :=
  ⟨(c5_bad_metrics_port_disables_server envBadMetricsPort "not-a-number"
      (builtConfig envBadMetricsPort) rfl (by decide) (by decide) rfl).1,
   (c5_bad_metrics_port_disables_server envBadMetricsPort "not-a-number"
      (builtConfig envBadMetricsPort) rfl (by decide) (by decide) rfl).2.1⟩

/-- Claim C9: with the metrics server enabled but `METRICS_AUTH` unset,
a request with no Authorization header passes the check — optional
chaining leaves the left side `undefined` and the right side is
`undefined` too, so the strict inequality is false — and the route
answers 200 with the exposition. -/
theorem c9_no_auth_no_header_passes (cfg : MetricsConfig) (st : MetricsState)
    (hen : metricsServerEnabled cfg = true) (hauth : cfg.METRICS_AUTH = none) :
    metricsRoute cfg.METRICS_AUTH none (registerMetricsText st) =
      { status := 200, contentType := some "text/plain",
        body := registerMetricsText st } := by
  rw [hauth]
  simp [metricsRoute]

/-- Witness for C9 at a concrete configuration. -/
theorem c9_no_auth_no_header_passes_witness :
    metricsRoute cfgNoAuth.METRICS_AUTH none (registerMetricsText st0) =
      { status := 200, contentType := some "text/plain",
        body := registerMetricsText st0 } :=
  c9_no_auth_no_header_passes cfgNoAuth st0 (by decide) rfl

/-- Claim C10: when the server-enabled guard holds, the top level calls
`listen` twice with the same `METRICS_PORT` — first with the port
alone, then with the port, the host and a callback — and that callback
exits the process with code 1 when given an error. -/
theorem c10_double_listen (cfg : MetricsConfig)
    (hen : metricsServerEnabled cfg = true) :
    mainActions cfg =
      [MainAction.sentryInit, MainAction.createLogger cfg.LOGGING_LEVEL,
       MainAction.startShards, MainAction.startPoller,
       MainAction.createServer, MainAction.registerRoute, MainAction.addHook,
       MainAction.logStartingMetrics (enabledPort cfg),
       MainAction.listen (enabledPort cfg),
       MainAction.listenWith (enabledPort cfg) (cfg.METRICS_HOST.getD "")] ∧
    (∀ e address, listenCallback (some e) address =
      [CbAction.consoleError e, CbAction.processExit 1]) := by
  constructor
  · simp [mainActions, hen]
  · intro e address
    rfl

/-- Witness for C10 at a concrete configuration. -/
theorem c10_double_listen_witness :
    mainActions cfgNoAuth =
      [MainAction.sentryInit, MainAction.createLogger "info",
       MainAction.startShards, MainAction.startPoller,
       MainAction.createServer, MainAction.registerRoute, MainAction.addHook,
       MainAction.logStartingMetrics 9100,
       MainAction.listen 9100,
       MainAction.listenWith 9100 "0.0.0.0"] ∧
    listenCallback (some "EADDRINUSE") "0.0.0.0:9100" =
      [CbAction.consoleError "EADDRINUSE", CbAction.processExit 1] :=
  ⟨(c10_double_listen cfgNoAuth (by decide)).1,
   (c10_double_listen cfgNoAuth (by decide)).2 "EADDRINUSE" "0.0.0.0:9100"⟩

/-- Claim C7: each gateway-event callback invocation increments the
gateway-events counter for its name by exactly 1 and changes nothing
else, each redis-command callback invocation does the same for the
redis-commands counter, and the incremented value appears as an
exposition line in the next `/metrics` scrape of the updated state. -/
theorem c7_callbacks_increment_by_one (s : MetricsState) (n : String) :
    counterGet (handleGatewayEvent n s).events n = counterGet s.events n + 1 ∧
    (∀ m, m ≠ n → counterGet (handleGatewayEvent n s).events m = counterGet s.events m) ∧
    (handleGatewayEvent n s).redisCommands = s.redisCommands ∧
    (handleGatewayEvent n s).guildCount = s.guildCount ∧
    counterGet (handleRedisCommand n s).redisCommands n =
      counterGet s.redisCommands n + 1 ∧
    (∀ m, m ≠ n →
      counterGet (handleRedisCommand n s).redisCommands m = counterGet s.redisCommands m) ∧
    (handleRedisCommand n s).events = s.events ∧
    (handleRedisCommand n s).guildCount = s.guildCount ∧
    containsStr (registerMetricsText (handleGatewayEvent n s))
      (counterLine eventsCounterName (n, counterGet s.events n + 1)) ∧
    containsStr (registerMetricsText (handleRedisCommand n s))
      (counterLine redisCommandsCounterName (n, counterGet s.redisCommands n + 1)) := by
  refine ⟨counterGet_inc_self s.events n,
    fun m hm => counterGet_inc_other s.events n m hm, rfl, rfl,
    counterGet_inc_self s.redisCommands n,
    fun m hm => counterGet_inc_other s.redisCommands n m hm, rfl, rfl, ?_, ?_⟩
  · unfold registerMetricsText handleGatewayEvent
    exact containsStr_appLeft _ _ _ (containsStr_appRight _ _ _
      (renderCounter_contains_line eventsCounterName "Number of gateway events" s.events n))
  · unfold registerMetricsText handleRedisCommand
    exact containsStr_appRight _ _ _
      (renderCounter_contains_line redisCommandsCounterName "Number of redis commands"
        s.redisCommands n)

/-- Witness for C7 at a concrete state, name and other label. -/
theorem c7_callbacks_increment_by_one_witness :
    counterGet (handleGatewayEvent "MESSAGE_CREATE" st0).events "MESSAGE_CREATE" = 1 ∧
    counterGet (handleGatewayEvent "MESSAGE_CREATE" st0).events "GUILD_CREATE" = 0 ∧
    counterGet (handleRedisCommand "hset" st0).redisCommands "hset" = 1 := by
  have h1 := c7_callbacks_increment_by_one st0 "MESSAGE_CREATE"
  have h2 := c7_callbacks_increment_by_one st0 "hset"
  refine ⟨?_, ?_, ?_⟩
  · rw [h1.1]
    decide
  · rw [h1.2.1 "GUILD_CREATE" (by decide)]
    decide
  · rw [h2.2.2.2.2.1]
    decide

/-- Claim C8: every post-startup operation of the program — the two
metric callbacks, a poller tick and a `/metrics` request — leaves the
configuration record, the shard count and the shard collection exactly
as they were, both for a single operation and along any sequence of
operations. -/
theorem c8_config_and_shards_preserved (s : AppState) (op : AppOp) (ops : List AppOp) :
    (applyOp s op).cfg = s.cfg ∧
    (applyOp s op).shardTotal = s.shardTotal ∧
    (applyOp s op).shards = s.shards ∧
    (ops.foldl applyOp s).cfg = s.cfg ∧
    (ops.foldl applyOp s).shardTotal = s.shardTotal ∧
    (ops.foldl applyOp s).shards = s.shards := by
  have single : ∀ (t : AppState) (o : AppOp),
      (applyOp t o).cfg = t.cfg ∧ (applyOp t o).shardTotal = t.shardTotal ∧
      (applyOp t o).shards = t.shards := by
    intro t o
    cases o <;> simp [applyOp]
  have fold : ∀ (l : List AppOp) (t : AppState),
      (l.foldl applyOp t).cfg = t.cfg ∧ (l.foldl applyOp t).shardTotal = t.shardTotal ∧
      (l.foldl applyOp t).shards = t.shards := by
    intro l
    induction l with
    | nil => intro t; exact ⟨rfl, rfl, rfl⟩
    | cons o rest ih =>
      intro t
      have h1 := single t o
      have h2 := ih (applyOp t o)
      refine ⟨?_, ?_, ?_⟩
      · rw [List.foldl_cons, h2.1, h1.1]
      · rw [List.foldl_cons, h2.2.1, h1.2.1]
      · rw [List.foldl_cons, h2.2.2, h1.2.2]
  exact ⟨(single s op).1, (single s op).2.1, (single s op).2.2,
    (fold ops s).1, (fold ops s).2.1, (fold ops s).2.2⟩

/-- Claim C6: the `startShards` loop, run for any shard count `n`,
performs for each shard id in order the construction, the awaited
connect and the push, one shard fully before the next — its trace is
the concatenation of the per-shard step blocks — so the `shards`
collection ends up holding the handles in shard-id order (for the
source's `shardCount = 1`, just `[0]`), and for every `i` with
`i + 1 < n` the completion of shard `i`'s connect precedes the
construction of shard `i + 1`. -/
theorem c6_sequential_shard_startup (n : Nat) :
    (startShardsRun n).2 = List.range n ∧
    (startShardsRun n).1 = (List.range n).flatMap shardSteps ∧
    (startShardsRun shardCount).2 = [0] ∧
    ∀ i, i + 1 < n → ∃ pre post,
      (startShardsRun n).1 = pre ++ ShardEvent.connectDone i :: post ∧
      ShardEvent.construct (i + 1) ∈ post := by
  have hrun : startShardsRun n =
      ((List.range' 0 n 1).flatMap shardSteps, List.range' 0 n 1) :=
    startShardsFrom_spec n 0
  refine ⟨?_, ?_, by decide, ?_⟩
  · rw [hrun, List.range_eq_range']
  · rw [hrun, List.range_eq_range']
  · intro i hi
    have e1 : 0 + 1 * (i + 1) = i + 1 := by omega
    have e2 : (n - (i + 1)) + (i + 1) = n := by omega
    have h1 : List.range' 0 (i + 1) 1 ++ List.range' (i + 1) (n - (i + 1)) 1 =
        List.range' 0 n 1 := by
      have h := List.range'_append 0 (i + 1) (n - (i + 1)) 1
      rw [e1, e2] at h
      exact h
    have e3 : n - (i + 1) = (n - (i + 2)) + 1 := by omega
    have h2 : List.range' (i + 1) (n - (i + 1)) 1 =
        (i + 1) :: List.range' (i + 2) (n - (i + 2)) 1 := by
      rw [e3, List.range'_succ]
    have e4 : 0 + 1 * i = i := by omega
    have h3 : List.range' 0 (i + 1) 1 = List.range' 0 i 1 ++ [i] := by
      have h := @List.range'_concat 1 0 i
      rw [e4] at h
      exact h
    refine ⟨(List.range' 0 i 1).flatMap shardSteps ++
        [ShardEvent.construct i, ShardEvent.connectStart i],
      ShardEvent.push i ::
        (shardSteps (i + 1) ++ (List.range' (i + 2) (n - (i + 2)) 1).flatMap shardSteps),
      ?_, ?_⟩
    · rw [hrun]
      simp only [← h1, h2, h3, List.flatMap_append, List.flatMap_cons]
      simp [shardSteps, List.append_assoc]
    · simp [shardSteps]

/-- Witness for C6 at shard count 3 and shard index 1. -/
theorem c6_sequential_shard_startup_witness :
    (startShardsRun 3).2 = [0, 1, 2] ∧
    (∃ pre post, (startShardsRun 3).1 = pre ++ ShardEvent.connectDone 1 :: post ∧
      ShardEvent.construct 2 ∈ post) :=
  ⟨((c6_sequential_shard_startup 3).1).trans (by decide),
   (c6_sequential_shard_startup 3).2.2.2 1 (by decide)⟩
